import Mathlib

/-!
Shallow embedding of the gRPC order service (`internal/server` of
`grpc-order-service`): data model, pricing/validation helpers, the
in-memory order registry, the three unary handlers, and the three
streaming handlers, together with theorems about their behaviour.

Nondeterministic inputs of the Go code (generated UUID-based order ids,
wall-clock timestamps, the caller's context state, and transport send
results) are modelled as explicit oracle parameters.
-/

namespace OrderService

/-- Order lifecycle status (`pb.OrderStatus`), including the
`ORDER_STATUS_UNSPECIFIED` sentinel. -/
inductive OrderStatus
  | unspecified
  | pending
  | confirmed
  | shipped
  | delivered
  | cancelled
deriving DecidableEq, Repr

/-- Proto enum name of a status, as Go's `%s` formatting prints it. -/
def statusName : OrderStatus → String
  | .unspecified => "ORDER_STATUS_UNSPECIFIED"
  | .pending => "ORDER_STATUS_PENDING"
  | .confirmed => "ORDER_STATUS_CONFIRMED"
  | .shipped => "ORDER_STATUS_SHIPPED"
  | .delivered => "ORDER_STATUS_DELIVERED"
  | .cancelled => "ORDER_STATUS_CANCELLED"

/-- A line item (`pb.LineItem`): product id, quantity (int32),
unit price in cents (int64). -/
structure LineItem where
  productId : String
  quantity : Int
  unitPriceCents : Int
deriving DecidableEq, Repr

/-- An order (`pb.Order`). Timestamps are abstract `Nat` instants. -/
structure Order where
  id : String
  customerId : String
  items : List LineItem
  totalCents : Int
  status : OrderStatus
  createdAt : Nat
  updatedAt : Nat
deriving DecidableEq, Repr

/-- gRPC status codes used by the service. -/
inductive ErrCode
  | invalidArgument
  | notFound
  | failedPrecondition
  | canceled
  | deadlineExceeded
  | internal
deriving DecidableEq, Repr

/-- A gRPC status error: code plus description. -/
structure GrpcError where
  code : ErrCode
  msg : String
deriving DecidableEq, Repr

/-- gRPC code name, as it appears in `status.Error`'s `Error()` text. -/
def codeName : ErrCode → String
  | .invalidArgument => "InvalidArgument"
  | .notFound => "NotFound"
  | .failedPrecondition => "FailedPrecondition"
  | .canceled => "Canceled"
  | .deadlineExceeded => "DeadlineExceeded"
  | .internal => "Internal"

/-- The `err.Error()` text of a gRPC status error, as grpc-go renders it;
this is the string `OrderChannel` places into an `ErrorMessage` event. -/
def GrpcError.text (e : GrpcError) : String :=
  "rpc error: code = " ++ codeName e.code ++ " desc = " ++ e.msg

/-- Index-carrying body of `validateItems`: Go's `for i, item := range items`
loop, with `i` the index of the current head. -/
def validateItemsAux : Nat → List LineItem → Option GrpcError
  | _, [] => none
  | i, item :: rest =>
    if item.productId = "" then
      some ⟨.invalidArgument, "item[" ++ toString i ++ "]: product_id is required"⟩
    else if item.quantity ≤ 0 then
      some ⟨.invalidArgument, "item[" ++ toString i ++ "]: quantity must be positive"⟩
    else if item.unitPriceCents ≤ 0 then
      some ⟨.invalidArgument, "item[" ++ toString i ++ "]: unit_price_cents must be positive"⟩
    else validateItemsAux (i + 1) rest

/-- Function `validateItems` from the source: rejects an empty list, then checks each
item for empty product id, non-positive quantity, non-positive unit price.
`none` means the Go function returned `nil`. -/
def validateItems (items : List LineItem) : Option GrpcError :=
  if items.isEmpty then
    some ⟨.invalidArgument, "order must contain at least one item"⟩
  else validateItemsAux 0 items

/-- Function `totalCents` from the source: running sum of quantity × unit price. -/
def totalCents (items : List LineItem) : Int :=
  items.foldl (fun total item => total + item.quantity * item.unitPriceCents) 0

/-- The order registry: the `orders map[string]*pb.Order` field, modelled
as an association list keyed by order id. -/
abbrev Registry := List (String × Order)

/-- Map read `s.orders[id]`. -/
def Registry.getOrder : Registry → String → Option Order
  | [], _ => none
  | (k, o) :: rest, id => if k = id then some o else Registry.getOrder rest id

/-- Map write `s.orders[id] = o` (unconditional insert/overwrite). -/
def Registry.insertOrder : Registry → String → Order → Registry
  | [], id, o => [(id, o)]
  | (k, v) :: rest, id, o =>
    if k = id then (id, o) :: rest else (k, v) :: Registry.insertOrder rest id o

/-- Request type `pb.CreateOrderRequest`. -/
structure CreateOrderRequest where
  customerId : String
  items : List LineItem
deriving DecidableEq, Repr

/-- Request type `pb.UpdateOrderStatusRequest`. -/
structure UpdateOrderStatusRequest where
  orderId : String
  newStatus : OrderStatus
deriving DecidableEq, Repr

/-- Handler `CreateOrder`. `genId` is the generated `ord_`-prefixed id and
`now` the `timestamppb.Now()` instant (taken once, used for both stamps).
Returns the registry after the call together with the response or error. -/
def CreateOrder (reg : Registry) (genId : String) (now : Nat)
    (req : CreateOrderRequest) : Registry × Except GrpcError Order :=
  if req.customerId = "" then
    (reg, .error ⟨.invalidArgument, "customer_id is required"⟩)
  else
    match validateItems req.items with
    | some e => (reg, .error e)
    | none =>
      let order : Order :=
        { id := genId
          customerId := req.customerId
          items := req.items
          totalCents := totalCents req.items
          status := .pending
          createdAt := now
          updatedAt := now }
      (Registry.insertOrder reg order.id order, .ok order)

/-- Handler `GetOrder` (pure read; the registry is not returned because the
handler takes only the read lock and never writes). -/
def GetOrder (reg : Registry) (orderId : String) : Except GrpcError Order :=
  if orderId = "" then .error ⟨.invalidArgument, "order_id is required"⟩
  else
    match Registry.getOrder reg orderId with
    | none => .error ⟨.notFound, "order \"" ++ orderId ++ "\" not found"⟩
    | some o => .ok o

/-- The `validTransitions` table from the source. A lookup of a key absent
from the Go map (`unspecified`) yields the empty slice. -/
def validTransitions : OrderStatus → List OrderStatus
  | .pending => [.confirmed, .cancelled]
  | .confirmed => [.shipped, .cancelled]
  | .shipped => [.delivered]
  | .delivered => []
  | .cancelled => []
  | .unspecified => []

/-- Predicate `isValidTransition`: membership in the transition table row. -/
def isValidTransition (src tgt : OrderStatus) : Bool :=
  (validTransitions src).contains tgt

/-- Handler `UpdateOrderStatus`. `now` is the `timestamppb.Now()` used to
refresh `UpdatedAt`. Returns the registry after the call and the result. -/
def UpdateOrderStatus (reg : Registry) (now : Nat)
    (req : UpdateOrderStatusRequest) : Registry × Except GrpcError Order :=
  if req.orderId = "" then
    (reg, .error ⟨.invalidArgument, "order_id is required"⟩)
  else if req.newStatus = .unspecified then
    (reg, .error ⟨.invalidArgument, "new_status is required"⟩)
  else
    match Registry.getOrder reg req.orderId with
    | none => (reg, .error ⟨.notFound, "order \"" ++ req.orderId ++ "\" not found"⟩)
    | some order =>
      if !isValidTransition order.status req.newStatus then
        (reg, .error ⟨.failedPrecondition,
          "cannot transition order from " ++ statusName order.status ++
            " to " ++ statusName req.newStatus⟩)
      else
        let updated : Order := { order with status := req.newStatus, updatedAt := now }
        (Registry.insertOrder reg req.orderId updated, .ok updated)

/-- A context error as seen by `ctx.Err()`: `context.Canceled` or
`context.DeadlineExceeded`. -/
inductive CtxErr
  | canceled
  | deadlineExceeded
deriving DecidableEq, Repr

/-- Conversion `status.FromContextError(...).Err()`: the gRPC error a handler returns
when it observes a done context. -/
def ctxStatus : CtxErr → GrpcError
  | .canceled => ⟨.canceled, "context canceled"⟩
  | .deadlineExceeded => ⟨.deadlineExceeded, "context deadline exceeded"⟩

/-- Event type `pb.ShippingEvent`. -/
structure ShippingEvent where
  orderId : String
  carrier : String
  trackingId : String
  location : String
  description : String
  occurredAt : Nat
deriving DecidableEq, Repr

/-- The fixed milestone table of `WatchShipping`:
carrier, location, description, delay in milliseconds. -/
def shippingMilestones : List (String × String × String × Nat) :=
  [("FedEx", "Warehouse", "Order picked and packed", 200),
   ("FedEx", "Memphis Hub", "In transit", 400),
   ("FedEx", "Local Facility", "Out for delivery", 600),
   ("FedEx", "Destination", "Delivered", 800)]

/-- The emission loop of `WatchShipping`. Step `i` first observes the
context (`select` on `Done()` against the timer), then attempts the send.
`ctx i` is the context state observed at step `i`, `sendOk i` whether the
send of event `i` succeeds, `now i` the emission timestamp. Returns the
events actually sent and the terminal error (`none` = clean close). -/
def watchLoop (orderId : String) (ctx : Nat → Option CtxErr)
    (sendOk : Nat → Bool) (now : Nat → Nat) :
    Nat → List (String × String × String × Nat) →
    List ShippingEvent × Option GrpcError
  | _, [] => ([], none)
  | i, m :: rest =>
    match ctx i with
    | some ce => ([], some (ctxStatus ce))
    | none =>
      if sendOk i then
        let ev : ShippingEvent :=
          { orderId := orderId
            carrier := m.1
            trackingId := "TRK-" ++ orderId
            location := m.2.1
            description := m.2.2.1
            occurredAt := now i }
        let r := watchLoop orderId ctx sendOk now (i + 1) rest
        (ev :: r.1, r.2)
      else ([], some ⟨.internal, "failed to send event"⟩)

/-- Handler `WatchShipping`: validates the order id, resolves it in the
registry (read lock only), then runs the milestone emission loop.
The registry is returned unchanged — the handler performs no write. -/
def WatchShipping (reg : Registry) (orderId : String)
    (ctx : Nat → Option CtxErr) (sendOk : Nat → Bool) (now : Nat → Nat) :
    Registry × List ShippingEvent × Option GrpcError :=
  if orderId = "" then
    (reg, [], some ⟨.invalidArgument, "order_id is required"⟩)
  else
    match Registry.getOrder reg orderId with
    | none => (reg, [], some ⟨.notFound, "order \"" ++ orderId ++ "\" not found"⟩)
    | some _ =>
      let r := watchLoop orderId ctx sendOk now 0 shippingMilestones
      (reg, r.1, r.2)

/-- How an inbound stream ends after its messages: clean end-of-stream
(`io.EOF`) or a transport receive error. -/
inductive StreamEnd
  | eof
  | recvError
deriving DecidableEq, Repr

/-- Response type `pb.BulkCreateOrdersResponse`. -/
structure BulkCreateOrdersResponse where
  ordersCreated : Nat
  ordersFailed : Nat
  totalValueCents : Int
  orderIds : List String
deriving DecidableEq, Repr

/-- The receive loop of `BulkCreateOrders`. `i` counts received requests;
`ctx i` is the context state observed after receiving request `i`;
`genId i` / `now i` are the id and timestamp oracles for request `i`.
Accumulators mirror the Go locals `created`, `failed`, `totalValue`,
`orderIDs`. -/
def bulkLoop (genId : Nat → String) (now : Nat → Nat)
    (ctx : Nat → Option CtxErr) :
    Nat → Registry → Nat → Nat → Int → List String →
    List CreateOrderRequest → StreamEnd →
    Registry × Except GrpcError BulkCreateOrdersResponse
  | _, reg, created, failed, tv, ids, [], .eof =>
    (reg, .ok ⟨created, failed, tv, ids⟩)
  | _, reg, _, _, _, _, [], .recvError =>
    (reg, .error ⟨.internal, "recv error"⟩)
  | i, reg, created, failed, tv, ids, req :: rest, fin =>
    match ctx i with
    | some ce => (reg, .error (ctxStatus ce))
    | none =>
      if req.customerId = "" ∨ req.items.isEmpty then
        bulkLoop genId now ctx (i + 1) reg created (failed + 1) tv ids rest fin
      else
        match validateItems req.items with
        | some _ => bulkLoop genId now ctx (i + 1) reg created (failed + 1) tv ids rest fin
        | none =>
          let order : Order :=
            { id := genId i
              customerId := req.customerId
              items := req.items
              totalCents := totalCents req.items
              status := .pending
              createdAt := now i
              updatedAt := now i }
          bulkLoop genId now ctx (i + 1)
            (Registry.insertOrder reg order.id order)
            (created + 1) failed (tv + order.totalCents)
            (ids ++ [order.id]) rest fin

/-- Handler `BulkCreateOrders`: the receive loop started on empty
accumulators. -/
def BulkCreateOrders (reg : Registry) (genId : Nat → String)
    (now : Nat → Nat) (ctx : Nat → Option CtxErr)
    (reqs : List CreateOrderRequest) (fin : StreamEnd) :
    Registry × Except GrpcError BulkCreateOrdersResponse :=
  bulkLoop genId now ctx 0 reg 0 0 0 [] reqs fin

/-- One inbound command of `OrderChannel` (`pb.OrderCommand`'s oneof);
`unknown` is any unrecognized tag (the `default` arm of the switch). -/
inductive OrderCommand
  | create (req : CreateOrderRequest)
  | update (req : UpdateOrderStatusRequest)
  | get (orderId : String)
  | unknown
deriving DecidableEq, Repr

/-- One outbound event of `OrderChannel` (`pb.OrderEvent`'s oneof). -/
inductive OrderEvent
  | orderCreated (o : Order)
  | orderUpdated (o : Order)
  | orderFetched (o : Order)
  | errorMessage (msg : String)
deriving DecidableEq, Repr

/-- The dispatch of one received command: the body of the `switch` in
`OrderChannel`. Returns the registry afterwards and the single event the
handler passes to `Send`. -/
def channelStep (reg : Registry) (genId : String) (now : Nat) :
    OrderCommand → Registry × OrderEvent
  | .create req =>
    match CreateOrder reg genId now req with
    | (reg2, .ok o) => (reg2, .orderCreated o)
    | (reg2, .error e) => (reg2, .errorMessage e.text)
  | .update req =>
    match UpdateOrderStatus reg now req with
    | (reg2, .ok o) => (reg2, .orderUpdated o)
    | (reg2, .error e) => (reg2, .errorMessage e.text)
  | .get oid =>
    match GetOrder reg oid with
    | .ok o => (reg, .orderFetched o)
    | .error e => (reg, .errorMessage e.text)
  | .unknown => (reg, .errorMessage "unknown command type")

/-- The receive loop of `OrderChannel`. `ctx i` is the context state
observed after receiving command `i`; `sendOk i` is whether the send of
event `i` succeeds — its result is discarded (`_ = stream.Send(...)`), so
it only determines whether the event reaches the caller, never the control
flow. Returns the registry, the events actually delivered, and the
terminal error (`none` = clean return on end-of-stream). -/
def channelLoop (genId : Nat → String) (now : Nat → Nat)
    (ctx : Nat → Option CtxErr) (sendOk : Nat → Bool) :
    Nat → Registry → List OrderCommand → StreamEnd →
    Registry × List OrderEvent × Option GrpcError
  | _, reg, [], .eof => (reg, [], none)
  | _, reg, [], .recvError => (reg, [], some ⟨.internal, "recv error"⟩)
  | i, reg, cmd :: rest, fin =>
    match ctx i with
    | some ce => (reg, [], some (ctxStatus ce))
    | none =>
      let step := channelStep reg (genId i) (now i) cmd
      let r := channelLoop genId now ctx sendOk (i + 1) step.1 rest fin
      (r.1, if sendOk i then step.2 :: r.2.1 else r.2.1, r.2.2)

/-- Handler `OrderChannel`: the receive loop started at command 0. -/
def OrderChannel (reg : Registry) (genId : Nat → String) (now : Nat → Nat)
    (ctx : Nat → Option CtxErr) (sendOk : Nat → Bool)
    (cmds : List OrderCommand) (fin : StreamEnd) :
    Registry × List OrderEvent × Option GrpcError :=
  channelLoop genId now ctx sendOk 0 reg cmds fin

/-- An item violating one of the three per-item checks of `validateItems`. -/
def offending (it : LineItem) : Bool :=
  it.productId == "" || decide (it.quantity ≤ 0) || decide (it.unitPriceCents ≤ 0)

/-- A request `BulkCreateOrders` accepts: non-empty customer id, non-empty
item list, and items passing `validateItems`. -/
def validBulkReq (req : CreateOrderRequest) : Bool :=
  !(req.customerId == "" || req.items.isEmpty) && (validateItems req.items).isNone

/-! ### Registry lemmas -/

theorem getOrder_insert_self (reg : Registry) (id : String) (o : Order) :
    Registry.getOrder (Registry.insertOrder reg id o) id = some o := by
  induction reg with
  | nil => simp [Registry.insertOrder, Registry.getOrder]
  | cons p rest ih =>
    obtain ⟨k, v⟩ := p
    by_cases hk : k = id
    · simp [Registry.insertOrder, hk, Registry.getOrder]
    · simp [Registry.insertOrder, hk, Registry.getOrder, ih]

theorem getOrder_insert_ne (reg : Registry) (id : String) (o : Order)
    (other : String) (h : other ≠ id) :
    Registry.getOrder (Registry.insertOrder reg id o) other = Registry.getOrder reg other := by
  have hio : id ≠ other := fun hx => h hx.symm
  induction reg with
  | nil => simp [Registry.insertOrder, Registry.getOrder, hio]
  | cons p rest ih =>
    obtain ⟨k, v⟩ := p
    by_cases hk : k = id
    · subst hk
      simp [Registry.insertOrder, Registry.getOrder, hio]
    · by_cases hq : k = other
      · simp [Registry.insertOrder, hk, Registry.getOrder, hq, h]
      · simp [Registry.insertOrder, hk, Registry.getOrder, hq, ih]

/-! ### Pricing and validation lemmas -/

theorem totalCents_foldl (items : List LineItem) (acc : Int) :
    items.foldl (fun total item => total + item.quantity * item.unitPriceCents) acc
      = acc + (items.map fun it => it.quantity * it.unitPriceCents).sum := by
  induction items generalizing acc with
  | nil => simp
  | cons it rest ih => simp [List.foldl_cons, ih, add_assoc]

theorem validateItemsAux_none_iff (items : List LineItem) : ∀ i,
    validateItemsAux i items = none ↔
      ∀ it ∈ items, it.productId ≠ "" ∧ 0 < it.quantity ∧ 0 < it.unitPriceCents := by
  induction items with
  | nil => intro i; simp [validateItemsAux]
  | cons it rest ih =>
    intro i
    by_cases h1 : it.productId = ""
    · simp [validateItemsAux, h1]
    · by_cases h2 : it.quantity ≤ 0
      · simp [validateItemsAux, h1, h2]
      · by_cases h3 : it.unitPriceCents ≤ 0
        · simp [validateItemsAux, h1, h2, h3]
        · simp [validateItemsAux, h1, h2, h3, ih (i + 1), h1, not_le.mp h2, not_le.mp h3]

theorem validateItemsAux_some (items : List LineItem) : ∀ i e,
    validateItemsAux i items = some e →
      e.code = .invalidArgument ∧
      ∃ j it, items[j]? = some it ∧ offending it = true ∧
        (∀ k, k < j → ∀ it2, items[k]? = some it2 → offending it2 = false) ∧
        (e.msg = "item[" ++ toString (i + j) ++ "]: product_id is required" ∨
         e.msg = "item[" ++ toString (i + j) ++ "]: quantity must be positive" ∨
         e.msg = "item[" ++ toString (i + j) ++ "]: unit_price_cents must be positive") := by
  induction items with
  | nil => intro i e h; simp [validateItemsAux] at h
  | cons it rest ih =>
    intro i e h
    by_cases h1 : it.productId = ""
    · simp [validateItemsAux, h1] at h
      refine ⟨by simp [← h], 0, it, by simp, by simp [offending, h1], by omega, ?_⟩
      left; simp [← h]
    · by_cases h2 : it.quantity ≤ 0
      · simp [validateItemsAux, h1, h2] at h
        refine ⟨by simp [← h], 0, it, by simp, by simp [offending, h2], by omega, ?_⟩
        right; left; simp [← h]
      · by_cases h3 : it.unitPriceCents ≤ 0
        · simp [validateItemsAux, h1, h2, h3] at h
          refine ⟨by simp [← h], 0, it, by simp, by simp [offending, h3], by omega, ?_⟩
          right; right; simp [← h]
        · simp only [validateItemsAux, h1, h2, h3, if_false, if_neg] at h
          have hrec := ih (i + 1) e (by simpa using h)
          obtain ⟨hc, j, itj, hj, hoff, hfirst, hmsg⟩ := hrec
          refine ⟨hc, j + 1, itj, by simpa using hj, hoff, ?_, ?_⟩
          · intro k hk it2 hk2
            cases k with
            | zero =>
              simp at hk2
              subst hk2
              simp [offending, h1, h2, h3]
            | succ k2 =>
              exact hfirst k2 (by omega) it2 (by simpa using hk2)
          · have : i + 1 + j = i + (j + 1) := by omega
            rw [this] at hmsg
            exact hmsg

/-- C6: `totalCents` equals the sum over the items of
quantity × unitPriceCents, and `validateItems` succeeds exactly when the
list is non-empty and every item has a non-empty product id, positive
quantity and positive unit price; when it fails, the error carries
`InvalidArgument` and its message names the index of the first offending
item (or reports the empty list). -/
theorem C6_pricing_and_validation (items : List LineItem) :
    totalCents items = (items.map fun it => it.quantity * it.unitPriceCents).sum
    ∧ (validateItems items = none ↔
        items ≠ [] ∧ ∀ it ∈ items,
          it.productId ≠ "" ∧ 0 < it.quantity ∧ 0 < it.unitPriceCents)
    ∧ ∀ e, validateItems items = some e →
        e.code = .invalidArgument ∧
        ((items = [] ∧ e.msg = "order must contain at least one item") ∨
         ∃ (j : Nat) (it : LineItem), items[j]? = some it ∧ offending it = true ∧
           (∀ k, k < j → ∀ it2, items[k]? = some it2 → offending it2 = false) ∧
           (e.msg = "item[" ++ toString j ++ "]: product_id is required" ∨
            e.msg = "item[" ++ toString j ++ "]: quantity must be positive" ∨
            e.msg = "item[" ++ toString j ++ "]: unit_price_cents must be positive")) := by
  refine ⟨by simpa using totalCents_foldl items 0, ?_, ?_⟩
  · by_cases hemp : items = []
    · subst hemp; simp [validateItems]
    · rw [show validateItems items = validateItemsAux 0 items from by
        simp [validateItems, hemp]]
      rw [validateItemsAux_none_iff items 0]
      simp [hemp]
  · intro e h
    by_cases hemp : items = []
    · subst hemp
      simp [validateItems] at h
      exact ⟨by simp [← h], Or.inl ⟨rfl, by simp [← h]⟩⟩
    · rw [show validateItems items = validateItemsAux 0 items from by
        simp [validateItems, hemp]] at h
      have := validateItemsAux_some items 0 e h
      obtain ⟨hc, j, itj, hj, hoff, hfirst, hmsg⟩ := this
      exact ⟨hc, Or.inr ⟨j, itj, hj, hoff, hfirst, by simpa using hmsg⟩⟩

/-- Witness for C6 at a concrete offending list. -/
theorem C6_pricing_and_validation_witness :
    validateItems [⟨"sku_1", 0, 500⟩]
        = some ⟨.invalidArgument, "item[0]: quantity must be positive"⟩
    ∧ ErrCode.invalidArgument = ErrCode.invalidArgument :=
  ⟨by decide,
    ((C6_pricing_and_validation [⟨"sku_1", 0, 500⟩]).2.2
      ⟨.invalidArgument, "item[0]: quantity must be positive"⟩ (by decide)).1 ▸ rfl⟩

/-! ### Transition table and state lookup facts -/

theorem isValidTransition_iff (s t : OrderStatus) :
    isValidTransition s t = true ↔ t ∈ validTransitions s := by
  cases s <;> cases t <;> decide

/-- C1: for an order stored under a non-empty id with status S and any
requested target T (other than the `unspecified` sentinel, which §4.4
rejects as InvalidArgument before the transition check), `UpdateOrderStatus`
succeeds iff T is in the allowed-target row of S in `validTransitions`;
when T is not allowed it fails with FailedPrecondition naming the source
and the requested target; the table is exactly
pending to confirmed or cancelled, confirmed to shipped or cancelled,
shipped to delivered, and no targets from delivered or cancelled, so
`delivered` and `cancelled` admit no further transitions. -/
theorem C1_update_status_transition_table (reg : Registry) (now : Nat)
    (id : String) (T : OrderStatus) (order : Order) (hid : id ≠ "")
    (hget : Registry.getOrder reg id = some order) (hT : T ≠ .unspecified) :
    ((∃ o, (UpdateOrderStatus reg now ⟨id, T⟩).2 = .ok o)
        ↔ T ∈ validTransitions order.status)
    ∧ (T ∉ validTransitions order.status →
        (UpdateOrderStatus reg now ⟨id, T⟩).2 = .error ⟨.failedPrecondition,
          "cannot transition order from " ++ statusName order.status
            ++ " to " ++ statusName T⟩)
    ∧ validTransitions .pending = [.confirmed, .cancelled]
    ∧ validTransitions .confirmed = [.shipped, .cancelled]
    ∧ validTransitions .shipped = [.delivered]
    ∧ validTransitions .delivered = []
    ∧ validTransitions .cancelled = [] := by
  constructor
  · by_cases hv : isValidTransition order.status T = true
    · simp only [UpdateOrderStatus, hid, hT, hget, hv, if_neg, Bool.not_true]
      simp
      exact (isValidTransition_iff _ _).mp hv
    · simp only [UpdateOrderStatus, hid, hT, hget]
      simp [hv]
      exact fun hm => hv ((isValidTransition_iff _ _).mpr hm)
  · refine ⟨?_, rfl, rfl, rfl, rfl, rfl⟩
    intro hnm
    have hv : isValidTransition order.status T = false := by
      rw [Bool.eq_false_iff]
      exact fun hh => hnm ((isValidTransition_iff _ _).mp hh)
    simp [UpdateOrderStatus, hid, hT, hget, hv]

/-- Witness for C1: a stored pending order may not jump to `shipped`. -/
theorem C1_update_status_transition_table_witness :
    OrderStatus.shipped ∉ validTransitions OrderStatus.pending
    ∧ (UpdateOrderStatus
        [("ord_1", ⟨"ord_1", "cust_1", [⟨"sku_1", 2, 500⟩], 1000, .pending, 5, 5⟩)]
        7 ⟨"ord_1", .shipped⟩).2
      = .error ⟨.failedPrecondition,
          "cannot transition order from "
            ++ statusName (Order.status ⟨"ord_1", "cust_1", [⟨"sku_1", 2, 500⟩], 1000, .pending, 5, 5⟩)
            ++ " to " ++ statusName .shipped⟩ :=
  ⟨by decide,
    (C1_update_status_transition_table
      [("ord_1", ⟨"ord_1", "cust_1", [⟨"sku_1", 2, 500⟩], 1000, .pending, 5, 5⟩)]
      7 "ord_1" .shipped ⟨"ord_1", "cust_1", [⟨"sku_1", 2, 500⟩], 1000, .pending, 5, 5⟩
      (by decide) (by decide) (by decide)).2.1 (by decide)⟩

/-- C2: `CreateOrder` fails InvalidArgument on empty customer id or item
validation failure, leaving the registry unchanged; on success the
returned order is `pending`, its total is the computed item total, its
creation and update stamps are equal, and it is stored in the registry
under its generated id. -/
theorem C2_create_order (reg : Registry) (genId : String) (now : Nat)
    (req : CreateOrderRequest) :
    (req.customerId = "" →
      CreateOrder reg genId now req
        = (reg, .error ⟨.invalidArgument, "customer_id is required"⟩))
    ∧ (∀ e, req.customerId ≠ "" → validateItems req.items = some e →
        CreateOrder reg genId now req = (reg, .error e))
    ∧ (req.customerId ≠ "" → validateItems req.items = none →
        ∃ o, (CreateOrder reg genId now req).2 = .ok o
          ∧ o.status = .pending
          ∧ o.totalCents = totalCents req.items
          ∧ o.customerId = req.customerId
          ∧ o.items = req.items
          ∧ o.createdAt = now ∧ o.updatedAt = now
          ∧ Registry.getOrder (CreateOrder reg genId now req).1 o.id = some o) := by
  refine ⟨?_, ?_, ?_⟩
  · intro h; simp [CreateOrder, h]
  · intro e hne hv; simp [CreateOrder, hne, hv]
  · intro hne hv
    have hc : CreateOrder reg genId now req =
        (Registry.insertOrder reg genId
          { id := genId, customerId := req.customerId, items := req.items,
            totalCents := totalCents req.items, status := .pending,
            createdAt := now, updatedAt := now },
         .ok { id := genId, customerId := req.customerId, items := req.items,
               totalCents := totalCents req.items, status := .pending,
               createdAt := now, updatedAt := now }) := by
      simp [CreateOrder, hne, hv]
    refine ⟨_, by rw [hc], rfl, rfl, rfl, rfl, rfl, rfl, ?_⟩
    rw [hc]
    exact getOrder_insert_self reg genId _

/-- Witness for C2: the §8 scenario — customer `cust_1`, one item of
quantity 2 at 500 cents, total 1000 and status pending. -/
theorem C2_create_order_witness :
    totalCents [⟨"sku_1", 2, 500⟩] = 1000
    ∧ ∃ o, (CreateOrder [] "ord_1" 5 ⟨"cust_1", [⟨"sku_1", 2, 500⟩]⟩).2 = .ok o
        ∧ o.status = .pending
        ∧ o.totalCents = totalCents [⟨"sku_1", 2, 500⟩]
        ∧ o.customerId = "cust_1"
        ∧ o.items = [⟨"sku_1", 2, 500⟩]
        ∧ o.createdAt = 5 ∧ o.updatedAt = 5
        ∧ Registry.getOrder (CreateOrder [] "ord_1" 5 ⟨"cust_1", [⟨"sku_1", 2, 500⟩]⟩).1 o.id
            = some o :=
  ⟨by decide,
    (C2_create_order [] "ord_1" 5 ⟨"cust_1", [⟨"sku_1", 2, 500⟩]⟩).2.2
      (by decide) (by decide)⟩

/-- C8: `UpdateOrderStatus` is atomic on the registry: every error outcome
(InvalidArgument for an empty id or `unspecified` target, NotFound for an
absent order, FailedPrecondition for an illegal transition) leaves the
registry exactly as it was; on success only the named order changes — its
status becomes the requested one, its update stamp is refreshed, and every
other id resolves as before. -/
theorem C8_update_order_status_atomic (reg : Registry) (now : Nat)
    (req : UpdateOrderStatusRequest) :
    (∀ e, (UpdateOrderStatus reg now req).2 = .error e →
        (UpdateOrderStatus reg now req).1 = reg)
    ∧ (req.orderId = "" →
        (UpdateOrderStatus reg now req).2
          = .error ⟨.invalidArgument, "order_id is required"⟩)
    ∧ (req.orderId ≠ "" → req.newStatus = .unspecified →
        (UpdateOrderStatus reg now req).2
          = .error ⟨.invalidArgument, "new_status is required"⟩)
    ∧ (req.orderId ≠ "" → req.newStatus ≠ .unspecified →
        Registry.getOrder reg req.orderId = none →
        (UpdateOrderStatus reg now req).2
          = .error ⟨.notFound, "order \"" ++ req.orderId ++ "\" not found"⟩)
    ∧ (∀ order, req.orderId ≠ "" → req.newStatus ≠ .unspecified →
        Registry.getOrder reg req.orderId = some order →
        isValidTransition order.status req.newStatus = false →
        (UpdateOrderStatus reg now req).2 = .error ⟨.failedPrecondition,
          "cannot transition order from " ++ statusName order.status
            ++ " to " ++ statusName req.newStatus⟩)
    ∧ (∀ order, req.orderId ≠ "" → req.newStatus ≠ .unspecified →
        Registry.getOrder reg req.orderId = some order →
        isValidTransition order.status req.newStatus = true →
        (UpdateOrderStatus reg now req).2
            = .ok { order with status := req.newStatus, updatedAt := now }
          ∧ Registry.getOrder (UpdateOrderStatus reg now req).1 req.orderId
            = some { order with status := req.newStatus, updatedAt := now }
          ∧ ∀ other, other ≠ req.orderId →
              Registry.getOrder (UpdateOrderStatus reg now req).1 other
                = Registry.getOrder reg other) := by
  refine ⟨?_, ?_, ?_, ?_, ?_, ?_⟩
  · intro e he
    by_cases h1 : req.orderId = ""
    · simp [UpdateOrderStatus, h1]
    · by_cases h2 : req.newStatus = .unspecified
      · simp [UpdateOrderStatus, h1, h2]
      · cases hget : Registry.getOrder reg req.orderId with
        | none => simp [UpdateOrderStatus, h1, h2, hget]
        | some order =>
          by_cases hv : isValidTransition order.status req.newStatus = true
          · exfalso
            simp [UpdateOrderStatus, h1, h2, hget, hv] at he
          · simp [UpdateOrderStatus, h1, h2, hget, hv]
  · intro h1; simp [UpdateOrderStatus, h1]
  · intro h1 h2; simp [UpdateOrderStatus, h1, h2]
  · intro h1 h2 hget; simp [UpdateOrderStatus, h1, h2, hget]
  · intro order h1 h2 hget hv; simp [UpdateOrderStatus, h1, h2, hget, hv]
  · intro order h1 h2 hget hv
    have hu : UpdateOrderStatus reg now req =
        (Registry.insertOrder reg req.orderId
          { order with status := req.newStatus, updatedAt := now },
         .ok { order with status := req.newStatus, updatedAt := now }) := by
      simp [UpdateOrderStatus, h1, h2, hget, hv]
    refine ⟨by rw [hu], ?_, ?_⟩
    · rw [hu]; exact getOrder_insert_self reg req.orderId _
    · intro other hother
      rw [hu]
      exact getOrder_insert_ne reg req.orderId _ other hother

/-- Witness for C8: the success case on a stored pending order confirmed
to `confirmed`; other ids are untouched. -/
theorem C8_update_order_status_atomic_witness :
    Registry.getOrder
        [("ord_1", ⟨"ord_1", "cust_1", [⟨"sku_1", 2, 500⟩], 1000, .pending, 5, 5⟩)]
        "ord_1"
      = some ⟨"ord_1", "cust_1", [⟨"sku_1", 2, 500⟩], 1000, .pending, 5, 5⟩
    ∧ ((UpdateOrderStatus
          [("ord_1", ⟨"ord_1", "cust_1", [⟨"sku_1", 2, 500⟩], 1000, .pending, 5, 5⟩)]
          7 ⟨"ord_1", .confirmed⟩).2
        = .ok ⟨"ord_1", "cust_1", [⟨"sku_1", 2, 500⟩], 1000, .confirmed, 5, 7⟩
      ∧ Registry.getOrder (UpdateOrderStatus
          [("ord_1", ⟨"ord_1", "cust_1", [⟨"sku_1", 2, 500⟩], 1000, .pending, 5, 5⟩)]
          7 ⟨"ord_1", .confirmed⟩).1 "ord_1"
        = some ⟨"ord_1", "cust_1", [⟨"sku_1", 2, 500⟩], 1000, .confirmed, 5, 7⟩
      ∧ ∀ other, other ≠ "ord_1" →
          Registry.getOrder (UpdateOrderStatus
            [("ord_1", ⟨"ord_1", "cust_1", [⟨"sku_1", 2, 500⟩], 1000, .pending, 5, 5⟩)]
            7 ⟨"ord_1", .confirmed⟩).1 other
          = Registry.getOrder
              [("ord_1", ⟨"ord_1", "cust_1", [⟨"sku_1", 2, 500⟩], 1000, .pending, 5, 5⟩)]
              other) :=
  ⟨by decide,
    (C8_update_order_status_atomic
      [("ord_1", ⟨"ord_1", "cust_1", [⟨"sku_1", 2, 500⟩], 1000, .pending, 5, 5⟩)]
      7 ⟨"ord_1", .confirmed⟩).2.2.2.2.2
      ⟨"ord_1", "cust_1", [⟨"sku_1", 2, 500⟩], 1000, .pending, 5, 5⟩
      (by decide) (by decide) (by decide) (by decide)⟩

/-! ### Shipping streamer -/

theorem watchShipping_fst (reg : Registry) (orderId : String)
    (ctx : Nat → Option CtxErr) (sendOk : Nat → Bool) (now : Nat → Nat) :
    (WatchShipping reg orderId ctx sendOk now).1 = reg := by
  by_cases h : orderId = ""
  · simp [WatchShipping, h]
  · cases hget : Registry.getOrder reg orderId with
    | none => simp [WatchShipping, h, hget]
    | some o => simp [WatchShipping, h, hget]

/-- C9: `WatchShipping` rejects an empty order id with InvalidArgument and
an unknown id with NotFound; otherwise, absent cancellation and send
failure, it emits exactly the four milestone events in order — picked and
packed, in transit, out for delivery, delivered — each carrying the order
id and the tracking id derived from it, then closes cleanly with no
completion payload; the registry is never mutated. -/
theorem C9_watch_shipping (reg : Registry) (orderId : String)
    (ctx : Nat → Option CtxErr) (sendOk : Nat → Bool) (now : Nat → Nat) :
    (orderId = "" →
      WatchShipping reg orderId ctx sendOk now
        = (reg, [], some ⟨.invalidArgument, "order_id is required"⟩))
    ∧ (orderId ≠ "" → Registry.getOrder reg orderId = none →
      WatchShipping reg orderId ctx sendOk now
        = (reg, [], some ⟨.notFound, "order \"" ++ orderId ++ "\" not found"⟩))
    ∧ (WatchShipping reg orderId ctx sendOk now).1 = reg
    ∧ (orderId ≠ "" → (Registry.getOrder reg orderId).isSome →
        (∀ i, ctx i = none) → (∀ i, sendOk i = true) →
        (WatchShipping reg orderId ctx sendOk now).2.1
            = [⟨orderId, "FedEx", "TRK-" ++ orderId, "Warehouse",
                 "Order picked and packed", now 0⟩,
               ⟨orderId, "FedEx", "TRK-" ++ orderId, "Memphis Hub",
                 "In transit", now 1⟩,
               ⟨orderId, "FedEx", "TRK-" ++ orderId, "Local Facility",
                 "Out for delivery", now 2⟩,
               ⟨orderId, "FedEx", "TRK-" ++ orderId, "Destination",
                 "Delivered", now 3⟩]
          ∧ (WatchShipping reg orderId ctx sendOk now).2.2 = none) := by
  refine ⟨?_, ?_, watchShipping_fst reg orderId ctx sendOk now, ?_⟩
  · intro h; simp [WatchShipping, h]
  · intro h hget; simp [WatchShipping, h, hget]
  · intro h hsome hctx hsend
    cases hget : Registry.getOrder reg orderId with
    | none => rw [hget] at hsome; simp at hsome
    | some o =>
      constructor <;>
        simp [WatchShipping, h, hget, watchLoop, shippingMilestones, hctx, hsend]

/-- Witness for C9: full run on a one-order registry. -/
theorem C9_watch_shipping_witness :
    ("ord_1" : String) ≠ ""
    ∧ ((WatchShipping
          [("ord_1", ⟨"ord_1", "cust_1", [⟨"sku_1", 2, 500⟩], 1000, .pending, 0, 0⟩)]
          "ord_1" (fun _ => none) (fun _ => true) (fun i => i)).2.1
        = [⟨"ord_1", "FedEx", "TRK-" ++ "ord_1", "Warehouse", "Order picked and packed", 0⟩,
           ⟨"ord_1", "FedEx", "TRK-" ++ "ord_1", "Memphis Hub", "In transit", 1⟩,
           ⟨"ord_1", "FedEx", "TRK-" ++ "ord_1", "Local Facility", "Out for delivery", 2⟩,
           ⟨"ord_1", "FedEx", "TRK-" ++ "ord_1", "Destination", "Delivered", 3⟩]
      ∧ (WatchShipping
          [("ord_1", ⟨"ord_1", "cust_1", [⟨"sku_1", 2, 500⟩], 1000, .pending, 0, 0⟩)]
          "ord_1" (fun _ => none) (fun _ => true) (fun i => i)).2.2 = none) :=
  ⟨by decide,
    (C9_watch_shipping
      [("ord_1", ⟨"ord_1", "cust_1", [⟨"sku_1", 2, 500⟩], 1000, .pending, 0, 0⟩)]
      "ord_1" (fun _ => none) (fun _ => true) (fun i => i)).2.2.2
      (by decide) (by decide) (fun _ => rfl) (fun _ => rfl)⟩

/-! ### Bulk ingestion -/

/-- The ids of the orders the bulk ingestor creates, in input order:
one generated id per valid request (spec-side description). -/
def bulkIdsSpec (genId : Nat → String) : Nat → List CreateOrderRequest → List String
  | _, [] => []
  | i, q :: rest =>
    if validBulkReq q then genId i :: bulkIdsSpec genId (i + 1) rest
    else bulkIdsSpec genId (i + 1) rest

/-- The registry after bulk ingestion: one insert per valid request,
invalid requests leaving the registry untouched (spec-side description). -/
def bulkRegSpec (genId : Nat → String) (now : Nat → Nat) :
    Nat → Registry → List CreateOrderRequest → Registry
  | _, reg, [] => reg
  | i, reg, q :: rest =>
    if validBulkReq q then
      bulkRegSpec genId now (i + 1)
        (Registry.insertOrder reg (genId i)
          { id := genId i, customerId := q.customerId, items := q.items,
            totalCents := totalCents q.items, status := .pending,
            createdAt := now i, updatedAt := now i }) rest
    else bulkRegSpec genId now (i + 1) reg rest

theorem bulkIdsSpec_length (genId : Nat → String) :
    ∀ reqs i, (bulkIdsSpec genId i reqs).length
      = (reqs.filter validBulkReq).length := by
  intro reqs
  induction reqs with
  | nil => intro i; simp [bulkIdsSpec]
  | cons q rest ih =>
    intro i
    by_cases hq : validBulkReq q = true
    · simp [bulkIdsSpec, List.filter_cons, hq, ih]
    · simp [bulkIdsSpec, List.filter_cons, hq, ih]

theorem bulkRegSpec_invalid (genId : Nat → String) (now : Nat → Nat) :
    ∀ reqs i reg, (∀ q ∈ reqs, validBulkReq q = false) →
      bulkRegSpec genId now i reg reqs = reg := by
  intro reqs
  induction reqs with
  | nil => intro i reg _; rfl
  | cons q rest ih =>
    intro i reg h
    have hq : validBulkReq q = false := h q (by simp)
    simp only [bulkRegSpec, hq, Bool.false_eq_true, if_false]
    exact ih (i + 1) reg fun p hp => h p (by simp [hp])

theorem filter_length_split (p : CreateOrderRequest → Bool) :
    ∀ reqs : List CreateOrderRequest,
      (reqs.filter p).length + (reqs.filter fun q => !p q).length = reqs.length := by
  intro reqs
  induction reqs with
  | nil => rfl
  | cons q rest ih =>
    by_cases hq : p q = true
    · simp [List.filter_cons, hq, ← ih]; omega
    · simp [List.filter_cons, hq, ← ih]; omega

theorem bulkLoop_eof (genId : Nat → String) (now : Nat → Nat)
    (ctx : Nat → Option CtxErr) (hctx : ∀ i, ctx i = none) :
    ∀ reqs i reg created failed tv ids,
      bulkLoop genId now ctx i reg created failed tv ids reqs .eof
        = (bulkRegSpec genId now i reg reqs,
           .ok ⟨created + (reqs.filter validBulkReq).length,
                failed + (reqs.filter fun q => !validBulkReq q).length,
                tv + ((reqs.filter validBulkReq).map fun q => totalCents q.items).sum,
                ids ++ bulkIdsSpec genId i reqs⟩) := by
  intro reqs
  induction reqs with
  | nil =>
    intro i reg created failed tv ids
    simp [bulkLoop, bulkRegSpec, bulkIdsSpec]
  | cons q rest ih =>
    intro i reg created failed tv ids
    by_cases hA : q.customerId = "" ∨ q.items.isEmpty
    · have hvb : validBulkReq q = false := by
        rcases hA with h | h
        · simp [validBulkReq, h]
        · simp [validBulkReq, h]
      rw [bulkLoop, hctx i, if_pos hA, ih (i + 1) reg created (failed + 1) tv ids]
      simp [bulkRegSpec, bulkIdsSpec, hvb, List.filter_cons,
        add_assoc, add_comm, add_left_comm]
    · cases hvi : validateItems q.items with
      | some e =>
        have hvb : validBulkReq q = false := by
          simp [validBulkReq, hvi]
        rw [bulkLoop, hctx i, if_neg hA, hvi, ih (i + 1) reg created (failed + 1) tv ids]
        simp [bulkRegSpec, bulkIdsSpec, hvb, List.filter_cons,
          add_assoc, add_comm, add_left_comm]
      | none =>
        have hvb : validBulkReq q = true := by
          push_neg at hA
          simp [validBulkReq, hvi, hA.1, hA.2]
        rw [bulkLoop, hctx i, if_neg hA, hvi,
          ih (i + 1) _ (created + 1) failed (tv + totalCents q.items) (ids ++ [genId i])]
        simp [bulkRegSpec, bulkIdsSpec, hvb, List.filter_cons,
          add_assoc, add_comm, add_left_comm, List.append_assoc]

/-- C3: fed a finite request sequence ending in clean end-of-stream with no
cancellation, `BulkCreateOrders` returns one aggregate response:
`ordersCreated` counts exactly the valid requests, `ordersFailed` the
invalid ones (the two counters covering the whole input), `orderIds` lists
the created orders' generated ids in input order (hence has `ordersCreated`
entries), `totalValueCents` sums the created orders' totals, and the final
registry contains one inserted order per valid request — invalid requests
mutate nothing and surface no error. -/
theorem C3_bulk_create_orders (reg : Registry) (genId : Nat → String)
    (now : Nat → Nat) (ctx : Nat → Option CtxErr)
    (reqs : List CreateOrderRequest) (hctx : ∀ i, ctx i = none) :
    ∃ resp, (BulkCreateOrders reg genId now ctx reqs .eof).2 = .ok resp
      ∧ resp.ordersCreated = (reqs.filter validBulkReq).length
      ∧ resp.ordersFailed = (reqs.filter fun q => !validBulkReq q).length
      ∧ resp.ordersCreated + resp.ordersFailed = reqs.length
      ∧ resp.orderIds.length = resp.ordersCreated
      ∧ resp.orderIds = bulkIdsSpec genId 0 reqs
      ∧ resp.totalValueCents
          = ((reqs.filter validBulkReq).map fun q => totalCents q.items).sum
      ∧ (BulkCreateOrders reg genId now ctx reqs .eof).1
          = bulkRegSpec genId now 0 reg reqs
      ∧ ((∀ q ∈ reqs, validBulkReq q = false) →
          (BulkCreateOrders reg genId now ctx reqs .eof).1 = reg) := by
  have h := bulkLoop_eof genId now ctx hctx reqs 0 reg 0 0 0 []
  refine ⟨⟨(reqs.filter validBulkReq).length,
           (reqs.filter fun q => !validBulkReq q).length,
           ((reqs.filter validBulkReq).map fun q => totalCents q.items).sum,
           bulkIdsSpec genId 0 reqs⟩,
    ?_, rfl, rfl, filter_length_split validBulkReq reqs,
    bulkIdsSpec_length genId reqs 0, rfl, rfl, ?_, ?_⟩
  · rw [BulkCreateOrders, h]; simp
  · rw [BulkCreateOrders, h]
  · intro hall
    rw [BulkCreateOrders, h]
    exact bulkRegSpec_invalid genId now reqs 0 reg hall

/-- Witness for C3: the §8 scenario — three requests, the second with
quantity 0, giving 2 created, 1 failed, two order ids. -/
theorem C3_bulk_create_orders_witness :
    (BulkCreateOrders [] (fun i => "ord_" ++ toString i) (fun _ => 0) (fun _ => none)
        [⟨"c1", [⟨"s", 1, 100⟩]⟩, ⟨"c2", [⟨"s", 0, 100⟩]⟩, ⟨"c3", [⟨"s", 2, 50⟩]⟩]
        .eof).2
      = .ok ⟨2, 1, 200, ["ord_0", "ord_2"]⟩
    ∧ ∃ resp, (BulkCreateOrders [] (fun i => "ord_" ++ toString i) (fun _ => 0)
        (fun _ => none)
        [⟨"c1", [⟨"s", 1, 100⟩]⟩, ⟨"c2", [⟨"s", 0, 100⟩]⟩, ⟨"c3", [⟨"s", 2, 50⟩]⟩]
        .eof).2 = .ok resp
      ∧ resp.ordersCreated
          = ([⟨"c1", [⟨"s", 1, 100⟩]⟩, ⟨"c2", [⟨"s", 0, 100⟩]⟩,
              ⟨"c3", [⟨"s", 2, 50⟩]⟩].filter validBulkReq).length
      ∧ resp.ordersFailed
          = ([⟨"c1", [⟨"s", 1, 100⟩]⟩, ⟨"c2", [⟨"s", 0, 100⟩]⟩,
              ⟨"c3", [⟨"s", 2, 50⟩]⟩].filter fun q => !validBulkReq q).length
      ∧ resp.ordersCreated + resp.ordersFailed = 3
      ∧ resp.orderIds.length = resp.ordersCreated
      ∧ resp.orderIds = bulkIdsSpec (fun i => "ord_" ++ toString i) 0
          [⟨"c1", [⟨"s", 1, 100⟩]⟩, ⟨"c2", [⟨"s", 0, 100⟩]⟩, ⟨"c3", [⟨"s", 2, 50⟩]⟩]
      ∧ resp.totalValueCents
          = (([⟨"c1", [⟨"s", 1, 100⟩]⟩, ⟨"c2", [⟨"s", 0, 100⟩]⟩,
               ⟨"c3", [⟨"s", 2, 50⟩]⟩].filter validBulkReq).map
              fun q => totalCents q.items).sum
      ∧ (BulkCreateOrders [] (fun i => "ord_" ++ toString i) (fun _ => 0)
          (fun _ => none)
          [⟨"c1", [⟨"s", 1, 100⟩]⟩, ⟨"c2", [⟨"s", 0, 100⟩]⟩, ⟨"c3", [⟨"s", 2, 50⟩]⟩]
          .eof).1
        = bulkRegSpec (fun i => "ord_" ++ toString i) (fun _ => 0) 0 []
            [⟨"c1", [⟨"s", 1, 100⟩]⟩, ⟨"c2", [⟨"s", 0, 100⟩]⟩, ⟨"c3", [⟨"s", 2, 50⟩]⟩]
      ∧ ((∀ q ∈ [⟨"c1", [⟨"s", 1, 100⟩]⟩, ⟨"c2", [⟨"s", 0, 100⟩]⟩,
            (⟨"c3", [⟨"s", 2, 50⟩]⟩ : CreateOrderRequest)], validBulkReq q = false) →
          (BulkCreateOrders [] (fun i => "ord_" ++ toString i) (fun _ => 0)
            (fun _ => none)
            [⟨"c1", [⟨"s", 1, 100⟩]⟩, ⟨"c2", [⟨"s", 0, 100⟩]⟩, ⟨"c3", [⟨"s", 2, 50⟩]⟩]
            .eof).1 = []) :=
  ⟨by rfl,
    C3_bulk_create_orders [] (fun i => "ord_" ++ toString i) (fun _ => 0)
      (fun _ => none)
      [⟨"c1", [⟨"s", 1, 100⟩]⟩, ⟨"c2", [⟨"s", 0, 100⟩]⟩, ⟨"c3", [⟨"s", 2, 50⟩]⟩]
      (fun _ => rfl)⟩

/-! ### Command channel -/

/-- The event tag `OrderChannel` may answer a command with: success tag
matching the command kind, or an error message; an unrecognized command
draws exactly the fixed text. -/
def eventTagOk : OrderCommand → OrderEvent → Bool
  | .create _, .orderCreated _ => true
  | .create _, .errorMessage _ => true
  | .update _, .orderUpdated _ => true
  | .update _, .errorMessage _ => true
  | .get _, .orderFetched _ => true
  | .get _, .errorMessage _ => true
  | .unknown, .errorMessage m => m == "unknown command type"
  | _, _ => false

/-- The event sequence the channel answers a command sequence with:
one dispatch result per command, in receipt order, each computed against
the registry left by the previous commands (spec-side description). -/
def channelEventsSpec (genId : Nat → String) (now : Nat → Nat) :
    Nat → Registry → List OrderCommand → List OrderEvent
  | _, _, [] => []
  | i, reg, cmd :: rest =>
    (channelStep reg (genId i) (now i) cmd).2 ::
      channelEventsSpec genId now (i + 1) (channelStep reg (genId i) (now i) cmd).1 rest

theorem channelStep_tagOk (reg : Registry) (genId : String) (now : Nat)
    (cmd : OrderCommand) :
    eventTagOk cmd (channelStep reg genId now cmd).2 = true := by
  cases cmd with
  | create req =>
    cases hc : CreateOrder reg genId now req with
    | mk reg2 res => cases res <;> simp [channelStep, hc, eventTagOk]
  | update req =>
    cases hc : UpdateOrderStatus reg now req with
    | mk reg2 res => cases res <;> simp [channelStep, hc, eventTagOk]
  | get oid =>
    cases hc : GetOrder reg oid <;> simp [channelStep, hc, eventTagOk]
  | unknown => simp [channelStep, eventTagOk]

theorem channelEventsSpec_length (genId : Nat → String) (now : Nat → Nat) :
    ∀ cmds i reg, (channelEventsSpec genId now i reg cmds).length = cmds.length := by
  intro cmds
  induction cmds with
  | nil => intro i reg; rfl
  | cons cmd rest ih => intro i reg; simp [channelEventsSpec, ih]

theorem channelLoop_clean (genId : Nat → String) (now : Nat → Nat)
    (ctx : Nat → Option CtxErr) (sendOk : Nat → Bool)
    (hctx : ∀ i, ctx i = none) (hsend : ∀ i, sendOk i = true) :
    ∀ cmds i reg,
      (channelLoop genId now ctx sendOk i reg cmds .eof).2.1
          = channelEventsSpec genId now i reg cmds
        ∧ (channelLoop genId now ctx sendOk i reg cmds .eof).2.2 = none := by
  intro cmds
  induction cmds with
  | nil => intro i reg; simp [channelLoop, channelEventsSpec]
  | cons cmd rest ih =>
    intro i reg
    rw [channelLoop, hctx i]
    have := ih (i + 1) (channelStep reg (genId i) (now i) cmd).1
    simp only [channelEventsSpec, hsend i, if_true]
    exact ⟨by rw [this.1], this.2⟩

theorem channelEventsSpec_tagOk (genId : Nat → String) (now : Nat → Nat) :
    ∀ cmds i reg (k : Nat) cmd ev, cmds[k]? = some cmd →
      (channelEventsSpec genId now i reg cmds)[k]? = some ev →
      eventTagOk cmd ev = true := by
  intro cmds
  induction cmds with
  | nil => intro i reg k cmd ev h; simp at h
  | cons c rest ih =>
    intro i reg k cmd ev hc hev
    cases k with
    | zero =>
      simp at hc
      simp [channelEventsSpec] at hev
      subst hc
      rw [← hev]
      exact channelStep_tagOk reg (genId i) (now i) c
    | succ k2 =>
      simp at hc
      simp [channelEventsSpec] at hev
      exact ih (i + 1) _ k2 cmd ev hc hev

/-- C4: fed a finite command sequence consumed to end-of-stream with no
cancellation and a working transport, `OrderChannel` emits exactly one
event per received command, in receipt order: the matching success tag
(`OrderCreated`/`OrderUpdated`/`OrderFetched`) when the dispatched unary
handler succeeds, the `ErrorMessage` carrying the handler error's text when
it fails, and the fixed `ErrorMessage` text "unknown command type" for an
unrecognized tag; a failed command never closes the stream — the call
still ends cleanly after processing every command. -/
theorem C4_order_channel (reg : Registry) (genId : Nat → String)
    (now : Nat → Nat) (ctx : Nat → Option CtxErr) (sendOk : Nat → Bool)
    (cmds : List OrderCommand)
    (hctx : ∀ i, ctx i = none) (hsend : ∀ i, sendOk i = true) :
    (OrderChannel reg genId now ctx sendOk cmds .eof).2.2 = none
    ∧ (OrderChannel reg genId now ctx sendOk cmds .eof).2.1
        = channelEventsSpec genId now 0 reg cmds
    ∧ (OrderChannel reg genId now ctx sendOk cmds .eof).2.1.length = cmds.length
    ∧ ∀ (k : Nat) cmd ev, cmds[k]? = some cmd →
        (OrderChannel reg genId now ctx sendOk cmds .eof).2.1[k]? = some ev →
        eventTagOk cmd ev = true := by
  have h := channelLoop_clean genId now ctx sendOk hctx hsend cmds 0 reg
  refine ⟨h.2, h.1, ?_, ?_⟩
  · unfold OrderChannel
    rw [h.1, channelEventsSpec_length]
  · intro k cmd ev hc hev
    unfold OrderChannel at hev
    rw [h.1] at hev
    exact channelEventsSpec_tagOk genId now cmds 0 reg k cmd ev hc hev

/-- Witness for C4: the §8 scenario — `[Get(unknown_id), Create(valid)]`
answers exactly `[ErrorMessage, OrderCreated]` and the stream closes
cleanly after both commands. -/
theorem C4_order_channel_witness :
    (OrderChannel [] (fun i => "ord_" ++ toString i) (fun _ => 0) (fun _ => none)
        (fun _ => true)
        [.get "unknown_id", .create ⟨"cust_1", [⟨"sku_1", 2, 500⟩]⟩] .eof).2.1
      = [.errorMessage "rpc error: code = NotFound desc = order \"unknown_id\" not found",
         .orderCreated ⟨"ord_1", "cust_1", [⟨"sku_1", 2, 500⟩], 1000, .pending, 0, 0⟩]
    ∧ (OrderChannel [] (fun i => "ord_" ++ toString i) (fun _ => 0) (fun _ => none)
        (fun _ => true)
        [.get "unknown_id", .create ⟨"cust_1", [⟨"sku_1", 2, 500⟩]⟩] .eof).2.2 = none :=
  ⟨by rfl,
    (C4_order_channel [] (fun i => "ord_" ++ toString i) (fun _ => 0) (fun _ => none)
      (fun _ => true)
      [.get "unknown_id", .create ⟨"cust_1", [⟨"sku_1", 2, 500⟩]⟩]
      (fun _ => rfl) (fun _ => rfl)).1⟩

/-! ### Cancellation propagation -/

theorem watchLoop_cancel (orderId : String) (ctx : Nat → Option CtxErr)
    (sendOk : Nat → Bool) (now : Nat → Nat) :
    ∀ ms (k i : Nat) ce, k < ms.length →
      (∀ j, j < k → ctx (i + j) = none) →
      ctx (i + k) = some ce →
      (∀ j, j < k → sendOk (i + j) = true) →
      (watchLoop orderId ctx sendOk now i ms).1.length = k
      ∧ (watchLoop orderId ctx sendOk now i ms).2 = some (ctxStatus ce) := by
  intro ms
  induction ms with
  | nil => intro k i ce hk _ _ _; simp at hk
  | cons m rest ih =>
    intro k i ce hk hpre hck hsend
    cases k with
    | zero =>
      have h0 : ctx i = some ce := by simpa using hck
      simp [watchLoop, h0]
    | succ k2 =>
      have h0 : ctx i = none := by simpa using hpre 0 (by omega)
      have hs0 : sendOk i = true := by simpa using hsend 0 (by omega)
      have hrec := ih k2 (i + 1) ce (by simpa using Nat.lt_of_succ_lt_succ hk)
        (fun j hj => by
          have := hpre (j + 1) (by omega)
          rwa [show i + (j + 1) = i + 1 + j by omega] at this)
        (by rwa [show i + (k2 + 1) = i + 1 + k2 by omega] at hck)
        (fun j hj => by
          have := hsend (j + 1) (by omega)
          rwa [show i + (j + 1) = i + 1 + j by omega] at this)
      rw [watchLoop, h0]
      simp only [hs0, if_true]
      exact ⟨by simp [hrec.1], hrec.2⟩

theorem bulkLoop_cancel (genId : Nat → String) (now : Nat → Nat)
    (ctx : Nat → Option CtxErr) :
    ∀ reqs (k i : Nat) reg created failed tv ids fin ce,
      k < reqs.length →
      (∀ j, j < k → ctx (i + j) = none) →
      ctx (i + k) = some ce →
      (bulkLoop genId now ctx i reg created failed tv ids reqs fin).2
        = .error (ctxStatus ce) := by
  intro reqs
  induction reqs with
  | nil => intro k i reg created failed tv ids fin ce hk _ _; simp at hk
  | cons q rest ih =>
    intro k i reg created failed tv ids fin ce hk hpre hck
    cases k with
    | zero =>
      have h0 : ctx i = some ce := by simpa using hck
      rw [bulkLoop, h0]
    | succ k2 =>
      have h0 : ctx i = none := by simpa using hpre 0 (by omega)
      have hk2 : k2 < rest.length := by simpa using Nat.lt_of_succ_lt_succ hk
      have hpre2 : ∀ j, j < k2 → ctx (i + 1 + j) = none := fun j hj => by
        have := hpre (j + 1) (by omega)
        rwa [show i + (j + 1) = i + 1 + j by omega] at this
      have hck2 : ctx (i + 1 + k2) = some ce := by
        rwa [show i + (k2 + 1) = i + 1 + k2 by omega] at hck
      rw [bulkLoop, h0]
      by_cases hA : q.customerId = "" ∨ q.items.isEmpty
      · rw [if_pos hA]
        exact ih k2 (i + 1) reg created (failed + 1) tv ids fin ce hk2 hpre2 hck2
      · rw [if_neg hA]
        cases hvi : validateItems q.items with
        | some e =>
          exact ih k2 (i + 1) reg created (failed + 1) tv ids fin ce hk2 hpre2 hck2
        | none =>
          exact ih k2 (i + 1) _ (created + 1) failed _ _ fin ce hk2 hpre2 hck2

theorem channelLoop_cancel (genId : Nat → String) (now : Nat → Nat)
    (ctx : Nat → Option CtxErr) (sendOk : Nat → Bool) :
    ∀ cmds (k i : Nat) reg fin ce,
      k < cmds.length →
      (∀ j, j < k → ctx (i + j) = none) →
      ctx (i + k) = some ce →
      (∀ j, j < k → sendOk (i + j) = true) →
      (channelLoop genId now ctx sendOk i reg cmds fin).2.2 = some (ctxStatus ce)
      ∧ (channelLoop genId now ctx sendOk i reg cmds fin).2.1.length = k := by
  intro cmds
  induction cmds with
  | nil => intro k i reg fin ce hk _ _ _; simp at hk
  | cons cmd rest ih =>
    intro k i reg fin ce hk hpre hck hsend
    cases k with
    | zero =>
      have h0 : ctx i = some ce := by simpa using hck
      rw [channelLoop, h0]
      exact ⟨rfl, rfl⟩
    | succ k2 =>
      have h0 : ctx i = none := by simpa using hpre 0 (by omega)
      have hs0 : sendOk i = true := by simpa using hsend 0 (by omega)
      have hrec := ih k2 (i + 1) (channelStep reg (genId i) (now i) cmd).1 fin ce
        (by simpa using Nat.lt_of_succ_lt_succ hk)
        (fun j hj => by
          have := hpre (j + 1) (by omega)
          rwa [show i + (j + 1) = i + 1 + j by omega] at this)
        (by rwa [show i + (k2 + 1) = i + 1 + k2 by omega] at hck)
        (fun j hj => by
          have := hsend (j + 1) (by omega)
          rwa [show i + (j + 1) = i + 1 + j by omega] at this)
      rw [channelLoop, h0]
      simp only [hs0, if_true]
      exact ⟨hrec.1, by simp [hrec.2]⟩

/-- C7: whenever one of the three streaming handlers observes, before its
next blocking step (`WatchShipping` before each timed wait, the other two
after each received message, before processing it), that the caller's
context is cancelled or past its deadline, it stops producing output there
and terminates with exactly the error derived from the context — code
Cancelled for cancellation, DeadlineExceeded for an elapsed deadline,
never Internal or any other code; the step index is universally
quantified, so the check is honoured before every blocking step. -/
theorem C7_streaming_cancellation :
    (∀ ce, (ctxStatus ce).code ≠ .internal
      ∧ ((ctxStatus ce).code = .canceled ↔ ce = .canceled)
      ∧ ((ctxStatus ce).code = .deadlineExceeded ↔ ce = .deadlineExceeded))
    ∧ (∀ reg orderId ctx sendOk now (k : Nat) ce order,
        orderId ≠ "" → Registry.getOrder reg orderId = some order →
        k < shippingMilestones.length →
        (∀ j, j < k → ctx j = none) → ctx k = some ce →
        (∀ j, j < k → sendOk j = true) →
        (WatchShipping reg orderId ctx sendOk now).2.2 = some (ctxStatus ce)
        ∧ (WatchShipping reg orderId ctx sendOk now).2.1.length = k)
    ∧ (∀ reg genId now ctx reqs fin (k : Nat) ce,
        k < reqs.length →
        (∀ j, j < k → ctx j = none) → ctx k = some ce →
        (BulkCreateOrders reg genId now ctx reqs fin).2 = .error (ctxStatus ce))
    ∧ (∀ reg genId now ctx sendOk cmds fin (k : Nat) ce,
        k < cmds.length →
        (∀ j, j < k → ctx j = none) → ctx k = some ce →
        (∀ j, j < k → sendOk j = true) →
        (OrderChannel reg genId now ctx sendOk cmds fin).2.2 = some (ctxStatus ce)
        ∧ (OrderChannel reg genId now ctx sendOk cmds fin).2.1.length = k) := by
  refine ⟨?_, ?_, ?_, ?_⟩
  · intro ce; cases ce <;> simp [ctxStatus]
  · intro reg orderId ctx sendOk now k ce order hid hget hk hpre hck hsend
    have h := watchLoop_cancel orderId ctx sendOk now shippingMilestones k 0 ce hk
      (fun j hj => by simpa using hpre j hj)
      (by simpa using hck)
      (fun j hj => by simpa using hsend j hj)
    constructor
    · simp only [WatchShipping, hid, hget, if_neg]
      exact h.2
    · simp only [WatchShipping, hid, hget, if_neg]
      exact h.1
  · intro reg genId now ctx reqs fin k ce hk hpre hck
    exact bulkLoop_cancel genId now ctx reqs k 0 reg 0 0 0 [] fin ce hk
      (fun j hj => by simpa using hpre j hj) (by simpa using hck)
  · intro reg genId now ctx sendOk cmds fin k ce hk hpre hck hsend
    exact channelLoop_cancel genId now ctx sendOk cmds k 0 reg fin ce hk
      (fun j hj => by simpa using hpre j hj) (by simpa using hck)
      (fun j hj => by simpa using hsend j hj)

/-- Witness for C7: a bulk call whose context is already cancelled when the
first request arrives aborts with the Cancelled error. -/
theorem C7_streaming_cancellation_witness :
    ((0 : Nat) < ([⟨"cust_1", [⟨"sku_1", 2, 500⟩]⟩] : List CreateOrderRequest).length)
    ∧ (BulkCreateOrders [] (fun _ => "ord_1") (fun _ => 0)
        (fun _ => some .canceled) [⟨"cust_1", [⟨"sku_1", 2, 500⟩]⟩] .eof).2
      = .error (ctxStatus .canceled) :=
  ⟨by decide,
    C7_streaming_cancellation.2.2.1 [] (fun _ => "ord_1") (fun _ => 0)
      (fun _ => some .canceled) [⟨"cust_1", [⟨"sku_1", 2, 500⟩]⟩] .eof 0 .canceled
      (by decide) (fun j hj => absurd hj (Nat.not_lt_zero j)) rfl⟩

/-! ### Send-failure behaviour of the channel -/

theorem channelLoop_ignores_send (genId : Nat → String) (now : Nat → Nat)
    (ctx : Nat → Option CtxErr) (sendOk sendOk2 : Nat → Bool) :
    ∀ cmds (i : Nat) reg fin,
      (channelLoop genId now ctx sendOk i reg cmds fin).1
        = (channelLoop genId now ctx sendOk2 i reg cmds fin).1
      ∧ (channelLoop genId now ctx sendOk i reg cmds fin).2.2
        = (channelLoop genId now ctx sendOk2 i reg cmds fin).2.2 := by
  intro cmds
  induction cmds with
  | nil => intro i reg fin; cases fin <;> simp [channelLoop]
  | cons cmd rest ih =>
    intro i reg fin
    rw [channelLoop, channelLoop]
    cases hc : ctx i with
    | some ce => exact ⟨rfl, rfl⟩
    | none =>
      dsimp only
      exact ⟨(ih (i + 1) _ fin).1, (ih (i + 1) _ fin).2⟩

/-- C10: `OrderChannel` discards the result of every `Send`: the registry
it leaves behind and the way the call terminates are identical whatever
the transport does (first conjunct), so — unlike `WatchShipping`, which
aborts with Internal on the first failed send (last conjunct) — a failing
transport lets a received Create command be fully processed and stored
while no event at all is delivered and the stream still ends cleanly
(middle conjunct). -/
theorem C10_channel_send_failure_discarded :
    (∀ genId now ctx sendOk sendOk2 (i : Nat) reg cmds fin,
        (channelLoop genId now ctx sendOk i reg cmds fin).1
          = (channelLoop genId now ctx sendOk2 i reg cmds fin).1
        ∧ (channelLoop genId now ctx sendOk i reg cmds fin).2.2
          = (channelLoop genId now ctx sendOk2 i reg cmds fin).2.2)
    ∧ ((OrderChannel [] (fun _ => "ord_1") (fun _ => 0) (fun _ => none)
          (fun _ => false) [.create ⟨"cust_1", [⟨"sku_1", 2, 500⟩]⟩] .eof).2.1 = []
      ∧ (OrderChannel [] (fun _ => "ord_1") (fun _ => 0) (fun _ => none)
          (fun _ => false) [.create ⟨"cust_1", [⟨"sku_1", 2, 500⟩]⟩] .eof).2.2 = none
      ∧ Registry.getOrder (OrderChannel [] (fun _ => "ord_1") (fun _ => 0)
          (fun _ => none) (fun _ => false)
          [.create ⟨"cust_1", [⟨"sku_1", 2, 500⟩]⟩] .eof).1 "ord_1"
        = some ⟨"ord_1", "cust_1", [⟨"sku_1", 2, 500⟩], 1000, .pending, 0, 0⟩)
    ∧ (WatchShipping
        [("ord_1", ⟨"ord_1", "cust_1", [⟨"sku_1", 2, 500⟩], 1000, .pending, 0, 0⟩)]
        "ord_1" (fun _ => none) (fun _ => false) (fun _ => 0)).2.2
      = some ⟨.internal, "failed to send event"⟩ :=
  ⟨fun genId now ctx sendOk sendOk2 i reg cmds fin =>
      channelLoop_ignores_send genId now ctx sendOk sendOk2 cmds i reg fin,
    ⟨by rfl, by rfl, by rfl⟩, by rfl⟩

/-! ### Total/items invariant across every operation -/

/-- The §3 invariant: an order's stored total equals the computed total of
its line items. -/
def orderConsistent (o : Order) : Prop := o.totalCents = totalCents o.items

/-- Every order held in the registry satisfies the §3 invariant. -/
def regConsistent (reg : Registry) : Prop := ∀ p ∈ reg, orderConsistent p.2

/-- One complete RPC invocation, with its oracle inputs. -/
inductive Op where
  | createOp (genId : String) (now : Nat) (req : CreateOrderRequest)
  | getOp (orderId : String)
  | updateOp (now : Nat) (req : UpdateOrderStatusRequest)
  | watchOp (orderId : String) (ctx : Nat → Option CtxErr)
      (sendOk : Nat → Bool) (now : Nat → Nat)
  | bulkOp (genId : Nat → String) (now : Nat → Nat) (ctx : Nat → Option CtxErr)
      (reqs : List CreateOrderRequest) (fin : StreamEnd)
  | channelOp (genId : Nat → String) (now : Nat → Nat) (ctx : Nat → Option CtxErr)
      (sendOk : Nat → Bool) (cmds : List OrderCommand) (fin : StreamEnd)

/-- The registry effect of one invocation (`GetOrder` only reads). -/
def applyOp (reg : Registry) : Op → Registry
  | .createOp g n req => (CreateOrder reg g n req).1
  | .getOp _ => reg
  | .updateOp n req => (UpdateOrderStatus reg n req).1
  | .watchOp oid ctx s n => (WatchShipping reg oid ctx s n).1
  | .bulkOp g n c reqs fin => (BulkCreateOrders reg g n c reqs fin).1
  | .channelOp g n c s cmds fin => (OrderChannel reg g n c s cmds fin).1

/-- The registry after a sequence of invocations. -/
def runOps (reg : Registry) : List Op → Registry
  | [] => reg
  | op :: rest => runOps (applyOp reg op) rest

theorem mem_insertOrder : ∀ (reg : Registry) (id : String) (o : Order) p,
    p ∈ Registry.insertOrder reg id o → p = (id, o) ∨ p ∈ reg := by
  intro reg
  induction reg with
  | nil =>
    intro id o p hp
    simp [Registry.insertOrder] at hp
    exact Or.inl (by simp [hp])
  | cons q rest ih =>
    intro id o p hp
    obtain ⟨k, v⟩ := q
    by_cases hk : k = id
    · simp [Registry.insertOrder, hk] at hp
      rcases hp with h | h
      · exact Or.inl (by simp [h])
      · exact Or.inr (by simp [h])
    · simp [Registry.insertOrder, hk] at hp
      rcases hp with h | h
      · exact Or.inr (by simp [h])
      · rcases ih id o p h with h2 | h2
        · exact Or.inl h2
        · exact Or.inr (by simp [h2])

theorem regConsistent_insert {reg : Registry} {id : String} {o : Order}
    (hreg : regConsistent reg) (ho : orderConsistent o) :
    regConsistent (Registry.insertOrder reg id o) := by
  intro p hp
  rcases mem_insertOrder reg id o p hp with h | h
  · rw [h]; exact ho
  · exact hreg p h

theorem getOrder_mem : ∀ (reg : Registry) (id : String) (o : Order),
    Registry.getOrder reg id = some o → (id, o) ∈ reg := by
  intro reg
  induction reg with
  | nil => intro id o h; simp [Registry.getOrder] at h
  | cons q rest ih =>
    intro id o h
    obtain ⟨k, v⟩ := q
    by_cases hk : k = id
    · simp [Registry.getOrder, hk] at h
      simp [hk, h]
    · simp [Registry.getOrder, hk] at h
      exact List.mem_cons_of_mem _ (ih id o h)

theorem createOrder_preserves (reg : Registry) (g : String) (n : Nat)
    (req : CreateOrderRequest) (h : regConsistent reg) :
    regConsistent (CreateOrder reg g n req).1 := by
  by_cases h1 : req.customerId = ""
  · simpa [CreateOrder, h1] using h
  · cases hv : validateItems req.items with
    | some e => simpa [CreateOrder, h1, hv] using h
    | none =>
      have hc : (CreateOrder reg g n req).1 = Registry.insertOrder reg g
          { id := g, customerId := req.customerId, items := req.items,
            totalCents := totalCents req.items, status := .pending,
            createdAt := n, updatedAt := n } := by
        simp [CreateOrder, h1, hv]
      rw [hc]
      exact regConsistent_insert h rfl

theorem updateOrderStatus_preserves (reg : Registry) (n : Nat)
    (req : UpdateOrderStatusRequest) (h : regConsistent reg) :
    regConsistent (UpdateOrderStatus reg n req).1 := by
  by_cases h1 : req.orderId = ""
  · simpa [UpdateOrderStatus, h1] using h
  · by_cases h2 : req.newStatus = .unspecified
    · simpa [UpdateOrderStatus, h1, h2] using h
    · cases hget : Registry.getOrder reg req.orderId with
      | none => simpa [UpdateOrderStatus, h1, h2, hget] using h
      | some order =>
        by_cases hv : isValidTransition order.status req.newStatus = true
        · have hc : (UpdateOrderStatus reg n req).1 = Registry.insertOrder reg
              req.orderId { order with status := req.newStatus, updatedAt := n } := by
            simp [UpdateOrderStatus, h1, h2, hget, hv]
          rw [hc]
          exact regConsistent_insert h
            (h (req.orderId, order) (getOrder_mem reg req.orderId order hget))
        · simpa [UpdateOrderStatus, h1, h2, hget, hv] using h

theorem bulkLoop_preserves (genId : Nat → String) (now : Nat → Nat)
    (ctx : Nat → Option CtxErr) :
    ∀ reqs (i : Nat) reg created failed tv ids fin, regConsistent reg →
      regConsistent (bulkLoop genId now ctx i reg created failed tv ids reqs fin).1 := by
  intro reqs
  induction reqs with
  | nil =>
    intro i reg created failed tv ids fin h
    cases fin <;> simpa [bulkLoop] using h
  | cons q rest ih =>
    intro i reg created failed tv ids fin h
    rw [bulkLoop]
    cases hc : ctx i with
    | some ce => simpa using h
    | none =>
      dsimp only
      by_cases hA : q.customerId = "" ∨ q.items.isEmpty
      · rw [if_pos hA]
        exact ih (i + 1) reg created (failed + 1) tv ids fin h
      · rw [if_neg hA]
        cases hvi : validateItems q.items with
        | some e => exact ih (i + 1) reg created (failed + 1) tv ids fin h
        | none =>
          exact ih (i + 1) _ (created + 1) failed _ _ fin
            (regConsistent_insert h rfl)

theorem channelStep_preserves (reg : Registry) (g : String) (n : Nat)
    (cmd : OrderCommand) (h : regConsistent reg) :
    regConsistent (channelStep reg g n cmd).1 := by
  cases cmd with
  | create req =>
    have hp := createOrder_preserves reg g n req h
    cases hc : CreateOrder reg g n req with
    | mk reg2 res =>
      rw [hc] at hp
      cases res <;> simpa [channelStep, hc] using hp
  | update req =>
    have hp := updateOrderStatus_preserves reg n req h
    cases hc : UpdateOrderStatus reg n req with
    | mk reg2 res =>
      rw [hc] at hp
      cases res <;> simpa [channelStep, hc] using hp
  | get oid => cases hc : GetOrder reg oid <;> simpa [channelStep, hc] using h
  | unknown => simpa [channelStep] using h

theorem channelLoop_preserves (genId : Nat → String) (now : Nat → Nat)
    (ctx : Nat → Option CtxErr) (sendOk : Nat → Bool) :
    ∀ cmds (i : Nat) reg fin, regConsistent reg →
      regConsistent (channelLoop genId now ctx sendOk i reg cmds fin).1 := by
  intro cmds
  induction cmds with
  | nil => intro i reg fin h; cases fin <;> simpa [channelLoop] using h
  | cons cmd rest ih =>
    intro i reg fin h
    rw [channelLoop]
    cases hc : ctx i with
    | some ce => simpa using h
    | none =>
      dsimp only
      exact ih (i + 1) _ fin (channelStep_preserves reg (genId i) (now i) cmd h)

/-- C5: across any finite sequence of `CreateOrder`, `GetOrder`,
`UpdateOrderStatus`, `WatchShipping`, `BulkCreateOrders` and `OrderChannel`
invocations, every order in the registry keeps its stored total equal to
the sum over its line items of quantity × unit price; and
`UpdateOrderStatus` changes only the status and the update stamp of the
order it succeeds on — identity, customer, items, total and creation stamp
are exactly those of the stored order. -/
theorem C5_total_items_invariant :
    (∀ ops reg, regConsistent reg → regConsistent (runOps reg ops))
    ∧ (∀ reg now req o, (UpdateOrderStatus reg now req).2 = .ok o →
        ∃ old, Registry.getOrder reg req.orderId = some old
          ∧ o.items = old.items ∧ o.totalCents = old.totalCents
          ∧ o.id = old.id ∧ o.customerId = old.customerId
          ∧ o.createdAt = old.createdAt
          ∧ o.status = req.newStatus ∧ o.updatedAt = now) := by
  constructor
  · intro ops
    induction ops with
    | nil => intro reg h; exact h
    | cons op rest ih =>
      intro reg h
      rw [runOps]
      refine ih (applyOp reg op) ?_
      cases op with
      | createOp g n req => exact createOrder_preserves reg g n req h
      | getOp oid => exact h
      | updateOp n req => exact updateOrderStatus_preserves reg n req h
      | watchOp oid ctx s n =>
        rw [applyOp, watchShipping_fst]; exact h
      | bulkOp g n c reqs fin =>
        exact bulkLoop_preserves g n c reqs 0 reg 0 0 0 [] fin h
      | channelOp g n c s cmds fin =>
        exact channelLoop_preserves g n c s cmds 0 reg fin h
  · intro reg now req o h
    by_cases h1 : req.orderId = ""
    · simp [UpdateOrderStatus, h1] at h
    · by_cases h2 : req.newStatus = .unspecified
      · simp [UpdateOrderStatus, h1, h2] at h
      · cases hget : Registry.getOrder reg req.orderId with
        | none => simp [UpdateOrderStatus, h1, h2, hget] at h
        | some order =>
          by_cases hv : isValidTransition order.status req.newStatus = true
          · simp [UpdateOrderStatus, h1, h2, hget, hv] at h
            exact ⟨order, rfl, by simp [← h], by simp [← h], by simp [← h],
              by simp [← h], by simp [← h], by simp [← h], by simp [← h]⟩
          · simp [UpdateOrderStatus, h1, h2, hget, hv] at h

/-- Witness for C5: a create followed by a status update keeps the
invariant, and a concrete successful update changes only status and
update stamp. -/
theorem C5_total_items_invariant_witness :
    regConsistent (runOps []
      [Op.createOp "ord_1" 0 ⟨"cust_1", [⟨"sku_1", 2, 500⟩]⟩,
       Op.updateOp 3 ⟨"ord_1", .confirmed⟩])
    ∧ ∃ old, Registry.getOrder
          [("ord_1", ⟨"ord_1", "cust_1", [⟨"sku_1", 2, 500⟩], 1000, .pending, 0, 0⟩)]
          "ord_1" = some old
        ∧ Order.items ⟨"ord_1", "cust_1", [⟨"sku_1", 2, 500⟩], 1000, .confirmed, 0, 3⟩
            = old.items
        ∧ Order.totalCents ⟨"ord_1", "cust_1", [⟨"sku_1", 2, 500⟩], 1000, .confirmed, 0, 3⟩
            = old.totalCents
        ∧ Order.id ⟨"ord_1", "cust_1", [⟨"sku_1", 2, 500⟩], 1000, .confirmed, 0, 3⟩
            = old.id
        ∧ Order.customerId ⟨"ord_1", "cust_1", [⟨"sku_1", 2, 500⟩], 1000, .confirmed, 0, 3⟩
            = old.customerId
        ∧ Order.createdAt ⟨"ord_1", "cust_1", [⟨"sku_1", 2, 500⟩], 1000, .confirmed, 0, 3⟩
            = old.createdAt
        ∧ Order.status ⟨"ord_1", "cust_1", [⟨"sku_1", 2, 500⟩], 1000, .confirmed, 0, 3⟩
            = OrderStatus.confirmed
        ∧ Order.updatedAt ⟨"ord_1", "cust_1", [⟨"sku_1", 2, 500⟩], 1000, .confirmed, 0, 3⟩
            = 3 :=
  ⟨C5_total_items_invariant.1
      [Op.createOp "ord_1" 0 ⟨"cust_1", [⟨"sku_1", 2, 500⟩]⟩,
       Op.updateOp 3 ⟨"ord_1", .confirmed⟩] []
      (fun p hp => absurd hp (List.not_mem_nil p)),
    C5_total_items_invariant.2
      [("ord_1", ⟨"ord_1", "cust_1", [⟨"sku_1", 2, 500⟩], 1000, .pending, 0, 0⟩)]
      3 ⟨"ord_1", .confirmed⟩
      ⟨"ord_1", "cust_1", [⟨"sku_1", 2, 500⟩], 1000, .confirmed, 0, 3⟩ (by rfl)⟩

end OrderService
